import Mathlib

/-!
Shallow embedding of `src/frontend/script.js`, a browser view controller that
fetches players, matches and match statistics from an HTTP API and renders
them into DOM containers.  Network interaction is modelled by a `FetchResult`
value describing how the `fetch`/`res.json()` pair resolved; DOM containers
are modelled by view values describing the final contents of the container
after a render pass.  JSON bodies are modelled by the inductive `Json`, and
the handful of JavaScript coercions the script relies on (template-string
conversion, property access, `.length`, strict equality with `0`, truthiness)
are embedded explicitly so that the error paths of the script are faithful.
-/

/-- A parsed JSON value, as produced by `res.json()`.  Numbers are modelled
as integers (no claim depends on fractional values). -/
inductive Json where
  | jnull : Json
  | jbool (b : Bool) : Json
  | jnum (n : Int) : Json
  | jstr (s : String) : Json
  | jarr (elems : List Json) : Json
  | jobj (fields : List (String × Json)) : Json

/-- How the `fetch` + `res.json()` pair resolved: the promise rejected
(network/transport failure), or a response arrived with status flag `ok`
and a body that either parsed as JSON (`some v`) or failed to parse
(`none`, making `res.json()` reject). -/
inductive FetchResult where
  | networkError : FetchResult
  | response (ok : Bool) (body : Option Json) : FetchResult

mutual

/-- JavaScript template-string conversion `${v}` of a JSON-parsed value:
`String(v)`.  Arrays stringify as their elements joined by commas with
`null` elements becoming empty, objects as `"[object Object]"`. -/
def jsToString : Json → String
  | .jnull => "null"
  | .jbool b => if b then "true" else "false"
  | .jnum n => toString n
  | .jstr s => s
  | .jarr es => jsArrToString es
  | .jobj _ => "[object Object]"

/-- `Array.prototype.toString`: elements converted and joined by `","`,
with `null` elements contributing the empty string. -/
def jsArrToString : List Json → String
  | [] => ""
  | [.jnull] => ""
  | [e] => jsToString e
  | .jnull :: rest => "," ++ jsArrToString rest
  | e :: rest => jsToString e ++ "," ++ jsArrToString rest

end

/-- Property access `v.k` on a JSON-parsed value for an ordinary data key
(none of the keys this script reads from record elements collides with a
built-in property): objects yield the named field if present, every other
non-null value yields `undefined` (`none`).  Access on `null` is guarded by
the callers, which model the thrown `TypeError` separately. -/
def jsProp (v : Json) (k : String) : Option Json :=
  match v with
  | .jobj fs => (fs.find? (fun p => p.1 = k)).map (·.2)
  | _ => none

/-- Template-string rendering of a property: a present field is converted
with `String(...)`, an absent one renders as `"undefined"`. -/
def jsPropStr (v : Json) (k : String) : String :=
  match jsProp v k with
  | some w => jsToString w
  | none => "undefined"

/-- JavaScript truthiness of a JSON-parsed value. -/
def jsTruthy : Json → Bool
  | .jnull => false
  | .jbool b => b
  | .jnum n => n != 0
  | .jstr s => s ≠ ""
  | .jarr _ => true
  | .jobj _ => true

/-- Truthiness of a property (`undefined` is falsy). -/
def jsPropTruthy (v : Json) (k : String) : Bool :=
  match jsProp v k with
  | some w => jsTruthy w
  | none => false

/-- The `.length` read in `data.length === 0`: throws (`.error`) on `null`,
is the element/character count on arrays and strings, the `length` field
(if any) on objects, and `undefined` on numbers and booleans. -/
def jsLengthProp : Json → Except Unit (Option Json)
  | .jnull => .error ()
  | .jarr es => .ok (some (.jnum es.length))
  | .jstr s => .ok (some (.jnum s.length))
  | .jobj fs => .ok ((fs.find? (fun p => p.1 = "length")).map (·.2))
  | _ => .ok none

/-- Strict equality `l === 0` of a possibly-undefined property value with
the number `0`. -/
def strictEqZero : Option Json → Bool
  | some (.jnum n) => n == 0
  | _ => false

/-- Whether the value is a JavaScript array (the only JSON-parsed values
carrying a callable `forEach`). -/
def jsonIsArr : Json → Bool
  | .jarr _ => true
  | _ => false

-- ======================================================
-- Player list (`loadPlayers`)
-- ======================================================

/-- Final contents of the `players-table-body` container: either a single
placeholder message (`showMessage`) or a list of table rows, each a list of
cell texts. -/
inductive PlayersView where
  | message (s : String) : PlayersView
  | rows (rs : List (List String)) : PlayersView
deriving DecidableEq

/-- Placeholder shown by `loadPlayers` for an empty list. -/
def noPlayersMsg : String := "No players found."

/-- Placeholder shown by the `catch` branch of `loadPlayers`. -/
def errPlayersMsg : String := "Error loading players."

/-- One table row built inside `data.forEach`: the six interpolated cells.
Interpolating a field of a `null` element throws, hence `Except`. -/
def renderPlayerRow : Json → Except Unit (List String)
  | .jnull => .error ()
  | e => .ok [jsPropStr e "id", jsPropStr e "name", jsPropStr e "age",
              jsPropStr e "position", jsPropStr e "jersey_number",
              jsPropStr e "injury_status"]

/-- The `data.forEach(p => ...)` loop of `loadPlayers`: builds each row in
order, propagating a thrown `TypeError` from a `null` element. -/
def renderPlayerRows : List Json → Except Unit (List (List String))
  | [] => .ok []
  | e :: rest =>
    match renderPlayerRow e with
    | .error u => .error u
    | .ok r =>
      match renderPlayerRows rest with
      | .error u => .error u
      | .ok rs => .ok (r :: rs)

/-- `loadPlayers`: fetch `/players/`, parse the body, and render.  The
status flag is never inspected.  Any exception (fetch rejection, parse
failure, `null.length`, `forEach` on a non-array, interpolating a `null`
element) is caught and replaces the container with the error placeholder;
`data.length === 0` shows the no-data placeholder instead. -/
def loadPlayers : FetchResult → PlayersView
  | .networkError => .message errPlayersMsg
  | .response _ none => .message errPlayersMsg
  | .response _ (some body) =>
    match jsLengthProp body with
    | .error _ => .message errPlayersMsg
    | .ok l =>
      if strictEqZero l then .message noPlayersMsg
      else
        match body with
        | .jarr es =>
          match renderPlayerRows es with
          | .ok rs => .rows rs
          | .error _ => .message errPlayersMsg
        | _ => .message errPlayersMsg

/-- A `Player` record as returned by `GET /players/` (the six displayed
fields). -/
structure Player where
  id : Int
  name : String
  age : Int
  position : String
  jersey_number : Int
  injury_status : String

/-- The JSON object the API returns for a player. -/
def playerJson (p : Player) : Json :=
  .jobj [("id", .jnum p.id), ("name", .jstr p.name), ("age", .jnum p.age),
         ("position", .jstr p.position), ("jersey_number", .jnum p.jersey_number),
         ("injury_status", .jstr p.injury_status)]

/-- The row `loadPlayers` renders for a well-formed player record. -/
def playerRowOf (p : Player) : List String :=
  [toString p.id, p.name, toString p.age, p.position,
   toString p.jersey_number, p.injury_status]

theorem renderPlayerRow_playerJson (p : Player) :
    renderPlayerRow (playerJson p) = .ok (playerRowOf p) := rfl

theorem renderPlayerRows_playerJson (ps : List Player) :
    renderPlayerRows (ps.map playerJson) = .ok (ps.map playerRowOf) := by
  induction ps with
  | nil => rfl
  | cons p rest ih =>
    simp [renderPlayerRows, renderPlayerRow_playerJson, ih]

-- ======================================================
-- Match list (`loadMatches`)
-- ======================================================

/-- One rendered match card: CSS class, opponent heading, date, venue,
status label and score text. -/
structure MatchCard where
  cls : String
  opponent_name : String
  match_date : String
  venue : String
  statusText : String
  score : String
deriving DecidableEq

/-- One `<option>` of the `match-select` control: its `value` attribute and
its text content (both strings in the DOM). -/
structure SelOption where
  value : String
  label : String
deriving DecidableEq

/-- The fixed first option written by `matchSelect.innerHTML = ...`. -/
def defaultOption : SelOption :=
  { value := "", label := "-- Select a Completed Match --" }

/-- Final contents of the `matches-container`: a placeholder message or the
list of match cards. -/
inductive MatchesView where
  | message (s : String) : MatchesView
  | cards (cs : List MatchCard) : MatchesView
deriving DecidableEq

/-- Placeholder shown by `loadMatches` for an empty list. -/
def noMatchesMsg : String := "No matches found."

/-- Placeholder shown by the `catch` branch of `loadMatches`. -/
def errMatchesMsg : String := "Error loading matches."

/-- The card built for one element `m` inside `matches.forEach`: the CSS
class, status text and score all branch on the truthiness of
`m.is_completed`; the score is `"<our_score> - <opponent_score>"` when
completed and the literal `"vs"` otherwise. -/
def matchCardOf (m : Json) : MatchCard :=
  { cls := if jsPropTruthy m "is_completed" then "past" else "upcoming"
    opponent_name := jsPropStr m "opponent_name"
    match_date := jsPropStr m "match_date"
    venue := jsPropStr m "venue"
    statusText := if jsPropTruthy m "is_completed" then "Completed" else "Scheduled"
    score := if jsPropTruthy m "is_completed" then
               jsPropStr m "our_score" ++ " - " ++ jsPropStr m "opponent_score"
             else "vs" }

/-- The `<option>` appended for a completed match: `value` is the DOM
stringification of `m.id`, the label is `` `${m.match_date} vs ${m.opponent_name}` ``. -/
def matchOptionOf (m : Json) : SelOption :=
  { value := jsPropStr m "id"
    label := jsPropStr m "match_date" ++ " vs " ++ jsPropStr m "opponent_name" }

/-- One iteration of `matches.forEach`: a `null` element throws on the first
property access, otherwise the card is appended and, when `m.is_completed`
is truthy, so is the select option. -/
def processMatch : Json → Except Unit (MatchCard × Option SelOption)
  | .jnull => .error ()
  | m => .ok (matchCardOf m,
              if jsPropTruthy m "is_completed" then some (matchOptionOf m) else none)

/-- The `matches.forEach` loop, threading the cards appended to the
container and the options appended to the select.  A thrown error aborts the
loop; the `catch` branch then replaces the container with the error
placeholder while the select keeps the options appended so far. -/
def renderMatchesAux : List Json → List MatchCard → List SelOption →
    MatchesView × List SelOption
  | [], cs, opts => (.cards cs, opts)
  | e :: rest, cs, opts =>
    match processMatch e with
    | .error _ => (.message errMatchesMsg, opts)
    | .ok (c, o) => renderMatchesAux rest (cs ++ [c]) (opts ++ o.toList)

/-- `loadMatches`: fetch `/matches/upcoming` and render.  The container and
select are reset only after both `fetch` and `res.json()` succeed, so on a
rejection the select keeps its previous contents `sel`; after the reset the
select always starts with `defaultOption`.  The status flag is never
inspected. -/
def loadMatches (fr : FetchResult) (sel : List SelOption) :
    MatchesView × List SelOption :=
  match fr with
  | .networkError => (.message errMatchesMsg, sel)
  | .response _ none => (.message errMatchesMsg, sel)
  | .response _ (some body) =>
    match jsLengthProp body with
    | .error _ => (.message errMatchesMsg, [defaultOption])
    | .ok l =>
      if strictEqZero l then (.message noMatchesMsg, [defaultOption])
      else
        match body with
        | .jarr es => renderMatchesAux es [] [defaultOption]
        | _ => (.message errMatchesMsg, [defaultOption])

/-- A `Match` record as returned by `GET /matches/upcoming`; the score
fields are present only when the match is completed. -/
structure MatchRec where
  id : Int
  opponent_name : String
  match_date : String
  venue : String
  is_completed : Bool
  our_score : Option Int
  opponent_score : Option Int

/-- The JSON object the API returns for a match. -/
def matchJson (m : MatchRec) : Json :=
  .jobj ([("id", .jnum m.id), ("opponent_name", .jstr m.opponent_name),
          ("match_date", .jstr m.match_date), ("venue", .jstr m.venue),
          ("is_completed", .jbool m.is_completed)] ++
         (match m.our_score with
          | some a => [("our_score", .jnum a)]
          | none => []) ++
         (match m.opponent_score with
          | some b => [("opponent_score", .jnum b)]
          | none => []))

theorem jsPropTruthy_matchJson_completed (m : MatchRec) :
    jsPropTruthy (matchJson m) "is_completed" = m.is_completed := by
  cases m.our_score <;> cases m.opponent_score <;>
    simp [matchJson, jsPropTruthy, jsProp, jsTruthy, List.find?]

theorem processMatch_matchJson (m : MatchRec) :
    processMatch (matchJson m) =
      .ok (matchCardOf (matchJson m),
           if m.is_completed then some (matchOptionOf (matchJson m)) else none) := by
  have h : matchJson m ≠ .jnull := by
    cases m.our_score <;> cases m.opponent_score <;> simp [matchJson]
  rw [show processMatch (matchJson m) =
        .ok (matchCardOf (matchJson m),
             if jsPropTruthy (matchJson m) "is_completed" then
               some (matchOptionOf (matchJson m)) else none) from ?_,
      jsPropTruthy_matchJson_completed]
  cases hm : matchJson m <;> simp_all [processMatch, matchJson]

/-- The card `loadMatches` renders for a well-formed match record. -/
def matchCardRecOf (m : MatchRec) : MatchCard :=
  { cls := if m.is_completed then "past" else "upcoming"
    opponent_name := m.opponent_name
    match_date := m.match_date
    venue := m.venue
    statusText := if m.is_completed then "Completed" else "Scheduled"
    score := if m.is_completed then
               (match m.our_score with
                | some a => toString a
                | none => "undefined") ++ " - " ++
               (match m.opponent_score with
                | some b => toString b
                | none => "undefined")
             else "vs" }

/-- The select option `loadMatches` appends for a completed well-formed
match record. -/
def matchOptionRecOf (m : MatchRec) : SelOption :=
  { value := toString m.id, label := m.match_date ++ " vs " ++ m.opponent_name }

theorem matchCardOf_matchJson (m : MatchRec) :
    matchCardOf (matchJson m) = matchCardRecOf m := by
  obtain ⟨i, oname, md, ve, ic, os, ops⟩ := m
  cases os <;> cases ops <;>
    simp [matchCardOf, matchCardRecOf, matchJson, jsPropTruthy, jsPropStr,
          jsProp, jsTruthy, jsToString, List.find?]

theorem matchOptionOf_matchJson (m : MatchRec) :
    matchOptionOf (matchJson m) = matchOptionRecOf m := by
  cases m.our_score <;> cases m.opponent_score <;>
    simp [matchOptionOf, matchOptionRecOf, matchJson, jsPropStr, jsProp,
          jsToString, List.find?]

theorem renderMatchesAux_matchJson (ms : List MatchRec)
    (cs : List MatchCard) (opts : List SelOption) :
    renderMatchesAux (ms.map matchJson) cs opts =
      (.cards (cs ++ ms.map matchCardRecOf),
       opts ++ (ms.filter (·.is_completed)).map matchOptionRecOf) := by
  induction ms generalizing cs opts with
  | nil => simp [renderMatchesAux]
  | cons m rest ih =>
    simp only [List.map_cons, renderMatchesAux, processMatch_matchJson]
    by_cases h : m.is_completed <;>
      simp [h, ih, matchCardOf_matchJson, matchOptionOf_matchJson,
            List.filter_cons]

/-- After the select reset, every further append keeps `defaultOption` as
the first entry of the select, whatever the loop does. -/
theorem renderMatchesAux_default_head (es : List Json) (cs : List MatchCard)
    (opts : List SelOption) :
    ∃ rest, (renderMatchesAux es cs (defaultOption :: opts)).2 =
      defaultOption :: rest := by
  induction es generalizing cs opts with
  | nil => exact ⟨opts, rfl⟩
  | cons e tail ih =>
    simp only [renderMatchesAux]
    cases processMatch e with
    | error u => exact ⟨opts, rfl⟩
    | ok co => exact ih (cs ++ [co.1]) (opts ++ co.2.toList)

-- ======================================================
-- Match statistics (`loadMatchStats`)
-- ======================================================

/-- Final contents of the `stats-display` container: a placeholder message
or the list of stat cards, each a `(label, value)` pair as rendered by
`createStatCard`. -/
inductive StatsView where
  | message (s : String) : StatsView
  | cards (cs : List (String × String)) : StatsView
deriving DecidableEq

/-- Placeholder shown when an empty (falsy) match id is passed. -/
def selectMatchMsg : String := "Select a match to view statistics."

/-- Placeholder shown by the `catch` branch of `loadMatchStats`. -/
def noStatsMsg : String := "No statistics available for this match."

/-- The `stats` array of `loadMatchStats`: twelve labelled values read off
the parsed body `s`.  Building it accesses properties of `s`, which throws
when `s` is `null`. -/
def statsCardsOf : Json → Except Unit (List (String × String))
  | .jnull => .error ()
  | s => .ok [("Expected Goals (xG)", jsPropStr s "expected_goals"),
              ("Shots on Target", jsPropStr s "shots_on_target"),
              ("Ball Possession (%)", jsPropStr s "ball_possession_percent"),
              ("Total Passes", jsPropStr s "total_passes"),
              ("Successful Passes", jsPropStr s "successful_passes"),
              ("Pass Success Rate (%)", jsPropStr s "pass_success_rate"),
              ("Interceptions", jsPropStr s "interceptions"),
              ("Successful Tackles", jsPropStr s "successful_tackles"),
              ("Aerial Duels Won", jsPropStr s "aerial_disputes_won"),
              ("Total Fouls", jsPropStr s "total_fouls"),
              ("Yellow Cards", jsPropStr s "yellow_cards"),
              ("Red Cards", jsPropStr s "red_cards")]

/-- `loadMatchStats`: a falsy (empty-string) match id renders the prompt and
returns before any fetch; otherwise the fetch is issued and, unlike the
other loaders, `!res.ok` throws before the body is read.  The first
component records whether a network request was issued. -/
def loadMatchStats (matchId : String) (fr : FetchResult) : Bool × StatsView :=
  if matchId = "" then (false, .message selectMatchMsg)
  else
    (true,
     match fr with
     | .networkError => .message noStatsMsg
     | .response false _ => .message noStatsMsg
     | .response true none => .message noStatsMsg
     | .response true (some s) =>
       match statsCardsOf s with
       | .error _ => .message noStatsMsg
       | .ok cs => .cards cs)

/-- A `MatchStatistics` record as returned by `GET /matches/{id}/stats`. -/
structure MatchStatistics where
  expected_goals : Int
  shots_on_target : Int
  ball_possession_percent : Int
  total_passes : Int
  successful_passes : Int
  pass_success_rate : Int
  interceptions : Int
  successful_tackles : Int
  aerial_disputes_won : Int
  total_fouls : Int
  yellow_cards : Int
  red_cards : Int

/-- The JSON object the API returns for a statistics record. -/
def statsJson (s : MatchStatistics) : Json :=
  .jobj [("expected_goals", .jnum s.expected_goals),
         ("shots_on_target", .jnum s.shots_on_target),
         ("ball_possession_percent", .jnum s.ball_possession_percent),
         ("total_passes", .jnum s.total_passes),
         ("successful_passes", .jnum s.successful_passes),
         ("pass_success_rate", .jnum s.pass_success_rate),
         ("interceptions", .jnum s.interceptions),
         ("successful_tackles", .jnum s.successful_tackles),
         ("aerial_disputes_won", .jnum s.aerial_disputes_won),
         ("total_fouls", .jnum s.total_fouls),
         ("yellow_cards", .jnum s.yellow_cards),
         ("red_cards", .jnum s.red_cards)]

/-- The twelve cards rendered for a well-formed statistics record, in the
order they appear in the `stats` array. -/
def statsCardsRecOf (s : MatchStatistics) : List (String × String) :=
  [("Expected Goals (xG)", toString s.expected_goals),
   ("Shots on Target", toString s.shots_on_target),
   ("Ball Possession (%)", toString s.ball_possession_percent),
   ("Total Passes", toString s.total_passes),
   ("Successful Passes", toString s.successful_passes),
   ("Pass Success Rate (%)", toString s.pass_success_rate),
   ("Interceptions", toString s.interceptions),
   ("Successful Tackles", toString s.successful_tackles),
   ("Aerial Duels Won", toString s.aerial_disputes_won),
   ("Total Fouls", toString s.total_fouls),
   ("Yellow Cards", toString s.yellow_cards),
   ("Red Cards", toString s.red_cards)]

theorem statsCardsOf_statsJson (s : MatchStatistics) :
    statsCardsOf (statsJson s) = .ok (statsCardsRecOf s) := rfl

-- ======================================================
-- Player creation (`playerForm` submit handler)
-- ======================================================

/-- How the creation `POST /players/` resolved: rejected with an error
message, or a response with status flag `ok` (the body is unused). -/
inductive PostResult where
  | networkError (msg : String) : PostResult
  | response (ok : Bool) : PostResult

/-- The observable effects of one run of the submit handler, in order. -/
inductive SubmitEvt where
  | postPlayers : SubmitEvt
  | refreshPlayers : SubmitEvt
  | formReset : SubmitEvt
  | alertMsg (s : String) : SubmitEvt
deriving DecidableEq

/-- The `err.message` seen by the `catch` branch, when there is one: the
fetch rejection message, or `"Failed to create player"` thrown on
`!res.ok`. -/
def postErrorMessage : PostResult → Option String
  | .networkError m => some m
  | .response false => some "Failed to create player"
  | .response true => none

/-- The `playerForm` submit handler: always issues exactly one creation
POST; on success it awaits one `loadPlayers` refresh and then resets the
form; on any failure it shows one alert built from the error message.  The
handler reads the form fields to build the request body but never validates
them, so its control flow does not depend on them. -/
def playerFormSubmit : PostResult → List SubmitEvt
  | .response true => [.postPlayers, .refreshPlayers, .formReset]
  | .response false =>
    [.postPlayers, .alertMsg ("Error adding player: " ++ "Failed to create player")]
  | .networkError m => [.postPlayers, .alertMsg ("Error adding player: " ++ m)]

-- ======================================================
-- Claim theorems
-- ======================================================

/-- C2: submitting the player-creation form issues exactly one creation
POST; when the creation succeeds it is followed by exactly one player-list
refresh and then the form reset, and on failure (non-success status or
network error) there is no refresh and no reset, only a blocking alert
whose text contains the error message.  The handler never validates the
field values, so the flow is the same for every submission with valid
fields. -/
theorem c2_create_player_flow (pr : PostResult) :
    playerFormSubmit pr =
      (match postErrorMessage pr with
       | none => [.postPlayers, .refreshPlayers, .formReset]
       | some m => [.postPlayers, .alertMsg ("Error adding player: " ++ m)]) ∧
    (playerFormSubmit pr).count .postPlayers = 1 ∧
    (playerFormSubmit pr).head? = some .postPlayers := by
  cases pr with
  | networkError m =>
    refine ⟨rfl, ?_, rfl⟩
    simp [playerFormSubmit, List.count_cons]
  | response ok => cases ok <;> exact ⟨rfl, by decide, rfl⟩

/-- C3: the score text of a rendered match card is
`"<our_score> - <opponent_score>"` when the match is completed (so `"3 - 1"`
for scores 3 and 1) and exactly `"vs"` when it is not. -/
theorem c3_score_text :
    (∀ (m : MatchRec) (a b : Int), m.is_completed = true →
       m.our_score = some a → m.opponent_score = some b →
       (matchCardOf (matchJson m)).score = toString a ++ " - " ++ toString b) ∧
    (∀ m : MatchRec, m.is_completed = false →
       (matchCardOf (matchJson m)).score = "vs") := by
  constructor
  · intro m a b hc ha hb
    simp [matchCardOf_matchJson, matchCardRecOf, hc, ha, hb]
  · intro m hc
    simp [matchCardOf_matchJson, matchCardRecOf, hc]

/-- C3 witness: a completed match with scores 3 and 1 renders `"3 - 1"`;
an incomplete match renders `"vs"`. -/
theorem c3_score_text_witness :
    (matchCardOf (matchJson ⟨1, "Hanoi FC", "2024-03-01", "Home", true,
       some 3, some 1⟩)).score = "3 - 1" ∧
    (matchCardOf (matchJson ⟨2, "Hue FC", "2024-04-01", "Away", false,
       none, none⟩)).score = "vs" :=
  ⟨c3_score_text.1 _ 3 1 rfl rfl rfl, c3_score_text.2 _ rfl⟩

/-- C4: after a successful match-list render the selection control holds
the fixed default option followed by one option per completed match, in
order, labelled `"<match_date> vs <opponent_name>"` with the (stringified)
match id as value; no option is produced for an uncompleted match. -/
theorem c4_select_options (ok : Bool) (sel : List SelOption)
    (ms : List MatchRec) :
    (loadMatches (.response ok (some (.jarr (ms.map matchJson)))) sel).2 =
      defaultOption :: (ms.filter (·.is_completed)).map matchOptionRecOf := by
  cases ms with
  | nil => rfl
  | cons m rest =>
    have h0 : ¬ ((rest.length : Int) + 1 = 0) := by omega
    have hrw := renderMatchesAux_matchJson (m :: rest) [] [defaultOption]
    simp only [List.map_cons] at hrw
    simp [loadMatches, jsLengthProp, strictEqZero, h0, hrw, List.filter_cons]

/-- C5: a successful player-list response that is an array of N player
records renders exactly N rows, each holding the six displayed fields in
the order id, name, age, position, jersey_number, injury_status; an empty
array renders exactly the no-data placeholder and no rows. -/
theorem c5_player_rows (ok : Bool) (ps : List Player) :
    loadPlayers (.response ok (some (.jarr (ps.map playerJson)))) =
      (if ps.isEmpty then .message noPlayersMsg
       else .rows (ps.map playerRowOf)) ∧
    (ps.map playerRowOf).length = ps.length := by
  refine ⟨?_, by simp⟩
  cases ps with
  | nil => rfl
  | cons p rest =>
    have h0 : ¬ ((rest.length : Int) + 1 = 0) := by omega
    have hrw := renderPlayerRows_playerJson (p :: rest)
    simp only [List.map_cons] at hrw
    simp [loadPlayers, jsLengthProp, strictEqZero, h0, hrw]

/-- C6: an empty (falsy) match id renders the prompt placeholder and issues
no network request, whatever the network would have answered. -/
theorem c6_empty_match_id (fr : FetchResult) :
    loadMatchStats "" fr = (false, .message selectMatchMsg) := rfl

/-- C7: every failing statistics fetch — rejection, non-success status
(whatever the body), or unparsable body — renders the no-statistics
placeholder; the operation returns normally in all cases. -/
theorem c7_stats_failure (matchId : String) (h : matchId ≠ "") :
    loadMatchStats matchId .networkError = (true, .message noStatsMsg) ∧
    (∀ b, loadMatchStats matchId (.response false b) =
       (true, .message noStatsMsg)) ∧
    loadMatchStats matchId (.response true none) =
      (true, .message noStatsMsg) := by
  refine ⟨?_, fun b => ?_, ?_⟩ <;> simp [loadMatchStats, h]

/-- C7 witness: at the concrete id `"5"`, a rejected fetch and a 404-style
response both render the no-statistics placeholder. -/
theorem c7_stats_failure_witness :
    loadMatchStats "5" .networkError = (true, .message noStatsMsg) ∧
    loadMatchStats "5" (.response false (some (.jobj []))) =
      (true, .message noStatsMsg) :=
  ⟨(c7_stats_failure "5" (by decide)).1,
   (c7_stats_failure "5" (by decide)).2.1 (some (.jobj []))⟩

/-- C8: a successful statistics fetch replaces the container with exactly
the twelve labelled stat cards, one per `MatchStatistics` field, in the
fixed order expected_goals, shots_on_target, ball_possession_percent,
total_passes, successful_passes, pass_success_rate, interceptions,
successful_tackles, aerial_disputes_won, total_fouls, yellow_cards,
red_cards. -/
theorem c8_stats_cards (matchId : String) (h : matchId ≠ "")
    (s : MatchStatistics) :
    loadMatchStats matchId (.response true (some (statsJson s))) =
      (true, .cards (statsCardsRecOf s)) ∧
    (statsCardsRecOf s).length = 12 := by
  refine ⟨?_, rfl⟩
  simp [loadMatchStats, h, statsCardsOf_statsJson]

/-- C8 witness: at id `"3"` and a concrete statistics record the twelve
cards are rendered in order. -/
theorem c8_stats_cards_witness :
    loadMatchStats "3"
        (.response true (some (statsJson ⟨1, 2, 3, 4, 5, 6, 7, 8, 9, 10, 11, 12⟩))) =
      (true, .cards [("Expected Goals (xG)", "1"), ("Shots on Target", "2"),
        ("Ball Possession (%)", "3"), ("Total Passes", "4"),
        ("Successful Passes", "5"), ("Pass Success Rate (%)", "6"),
        ("Interceptions", "7"), ("Successful Tackles", "8"),
        ("Aerial Duels Won", "9"), ("Total Fouls", "10"),
        ("Yellow Cards", "11"), ("Red Cards", "12")]) := by
  rw [(c8_stats_cards "3" (by decide) _).1]; rfl

/-- Whether `v.length === 0` evaluates, without throwing, to `true`. -/
def lenEqZero (v : Json) : Bool :=
  match jsLengthProp v with
  | .error _ => false
  | .ok l => strictEqZero l

/-- C1 counterexample: in the players section an empty-but-successful
result renders a different placeholder text than a network failure, and a
non-success HTTP status whose body is a JSON array does render data rows
(the players loader never inspects the status), so the claim fails on both
counts. -/
theorem c1_counterexample :
    loadPlayers (.response true (some (.jarr []))) = .message noPlayersMsg ∧
    loadPlayers .networkError = .message errPlayersMsg ∧
    noPlayersMsg ≠ errPlayersMsg ∧
    loadPlayers (.response false
        (some (.jarr [playerJson ⟨1, "An", 20, "GK", 9, "FIT"⟩]))) =
      .rows [["1", "An", "20", "GK", "9", "FIT"]] := by
  exact ⟨rfl, rfl, by decide, rfl⟩

/-- C1 (amended): for the players and matches loaders, network failure,
parse failure, and any non-array body (the usual shape of a non-success
response) collapse to a placeholder — with the error text — while an
empty-but-successful array shows a distinct no-data text; since these
loaders never inspect the HTTP status, a non-success response renders no
rows only when its body is not an array.  The statistics loader does check
the status and renders its single placeholder on every failure kind. -/
theorem c1_read_error_placeholders :
    loadPlayers .networkError = .message errPlayersMsg ∧
    (∀ ok, loadPlayers (.response ok none) = .message errPlayersMsg) ∧
    (∀ ok, loadPlayers (.response ok (some (.jarr []))) = .message noPlayersMsg) ∧
    noPlayersMsg ≠ errPlayersMsg ∧
    (∀ ok v, jsonIsArr v = false →
       ∃ s, loadPlayers (.response ok (some v)) = .message s) ∧
    (∀ sel, (loadMatches .networkError sel).1 = .message errMatchesMsg) ∧
    (∀ sel ok, (loadMatches (.response ok none) sel).1 = .message errMatchesMsg) ∧
    (∀ sel ok, (loadMatches (.response ok (some (.jarr []))) sel).1 =
       .message noMatchesMsg) ∧
    noMatchesMsg ≠ errMatchesMsg ∧
    (∀ sel ok v, jsonIsArr v = false →
       ∃ s, (loadMatches (.response ok (some v)) sel).1 = .message s) ∧
    (∀ matchId, matchId ≠ "" →
       loadMatchStats matchId .networkError = (true, .message noStatsMsg) ∧
       ∀ b, loadMatchStats matchId (.response false b) =
         (true, .message noStatsMsg)) := by
  refine ⟨rfl, fun ok => rfl, fun ok => rfl, by decide, ?_, fun sel => rfl,
          fun sel ok => rfl, fun sel ok => rfl, by decide, ?_, ?_⟩
  · intro ok v hv
    cases v with
    | jarr es => simp [jsonIsArr] at hv
    | jnull => exact ⟨_, rfl⟩
    | jbool b => exact ⟨_, rfl⟩
    | jnum n => exact ⟨_, rfl⟩
    | jstr s =>
      simp only [loadPlayers, jsLengthProp]
      split
      · exact ⟨_, rfl⟩
      · exact ⟨_, rfl⟩
    | jobj fs =>
      simp only [loadPlayers, jsLengthProp]
      split
      · exact ⟨_, rfl⟩
      · exact ⟨_, rfl⟩
  · intro sel ok v hv
    cases v with
    | jarr es => simp [jsonIsArr] at hv
    | jnull => exact ⟨_, rfl⟩
    | jbool b => exact ⟨_, rfl⟩
    | jnum n => exact ⟨_, rfl⟩
    | jstr s =>
      simp only [loadMatches, jsLengthProp]
      split
      · exact ⟨_, rfl⟩
      · exact ⟨_, rfl⟩
    | jobj fs =>
      simp only [loadMatches, jsLengthProp]
      split
      · exact ⟨_, rfl⟩
      · exact ⟨_, rfl⟩
  · intro matchId h
    exact ⟨by simp [loadMatchStats, h], fun b => by simp [loadMatchStats, h]⟩

/-- C1 witness: a 404-style object body yields a placeholder for both list
loaders, and a rejected statistics fetch at id `"7"` yields the statistics
placeholder. -/
theorem c1_read_error_placeholders_witness :
    (∃ s, loadPlayers (.response false
        (some (.jobj [("detail", .jstr "Not Found")]))) = .message s) ∧
    (∃ s, (loadMatches (.response false
        (some (.jobj [("detail", .jstr "Not Found")]))) []).1 = .message s) ∧
    loadMatchStats "7" .networkError = (true, .message noStatsMsg) :=
  ⟨c1_read_error_placeholders.2.2.2.2.1 false _ rfl,
   c1_read_error_placeholders.2.2.2.2.2.2.2.2.2.1 [] false _ rfl,
   (c1_read_error_placeholders.2.2.2.2.2.2.2.2.2.2 "7" (by decide)).1⟩

/-- C9 counterexample: the select control is only reset after `fetch` and
`res.json()` both succeed, so an invocation that fails at the fetch leaves
the control exactly as it was — here empty, with no default option. -/
theorem c9_counterexample :
    (loadMatches .networkError []).2 = [] ∧
    (loadMatches .networkError []).2.head? ≠ some defaultOption :=
  ⟨rfl, by decide⟩

/-- C9 (amended): whenever the fetch and parse succeed — whatever the body
— the select control's first entry is the default empty-value option, and a
successful render of a list with C completed matches leaves exactly C + 1
options; when the fetch or the parse fails the control is left unchanged,
so it starts with the default option only if it already did. -/
theorem c9_select_default :
    (∀ (sel : List SelOption) (ok : Bool) (v : Json),
       ∃ rest, (loadMatches (.response ok (some v)) sel).2 =
         defaultOption :: rest) ∧
    (∀ sel, (loadMatches .networkError sel).2 = sel) ∧
    (∀ sel ok, (loadMatches (.response ok none) sel).2 = sel) ∧
    (∀ sel ok (ms : List MatchRec),
       (loadMatches (.response ok (some (.jarr (ms.map matchJson)))) sel).2.length =
         (ms.filter (·.is_completed)).length + 1) := by
  refine ⟨?_, fun sel => rfl, fun sel ok => rfl, ?_⟩
  · intro sel ok v
    cases v with
    | jarr es =>
      simp only [loadMatches, jsLengthProp]
      split
      · exact ⟨[], rfl⟩
      · exact renderMatchesAux_default_head es [] []
    | jnull => exact ⟨[], rfl⟩
    | jbool b => exact ⟨[], rfl⟩
    | jnum n => exact ⟨[], rfl⟩
    | jstr s =>
      simp only [loadMatches, jsLengthProp]
      split
      · exact ⟨[], rfl⟩
      · exact ⟨[], rfl⟩
    | jobj fs =>
      simp only [loadMatches, jsLengthProp]
      split
      · exact ⟨[], rfl⟩
      · exact ⟨[], rfl⟩
  · intro sel ok ms
    cases ms with
    | nil => rfl
    | cons m rest =>
      have h0 : ¬ ((rest.length : Int) + 1 = 0) := by omega
      have hrw := renderMatchesAux_matchJson (m :: rest) [] [defaultOption]
      simp only [List.map_cons] at hrw
      simp [loadMatches, jsLengthProp, strictEqZero, h0, hrw, List.filter_cons]

/-- C10 counterexample: a non-array JSON body whose `length` property is
strictly equal to `0` — here the object with a `length` field of `0` — is
not caught by iteration at all: `data.length === 0` holds and the loader
renders the no-data placeholder, not the error placeholder. -/
theorem c10_counterexample :
    loadPlayers (.response true (some (.jobj [("length", .jnum 0)]))) =
      .message noPlayersMsg ∧
    loadPlayers (.response true (some (.jstr ""))) = .message noPlayersMsg ∧
    noPlayersMsg ≠ errPlayersMsg :=
  ⟨rfl, rfl, by decide⟩

/-- C10 (amended): a players response body that parses as JSON but is not
an array never throws an uncaught error and always leaves a placeholder,
never rows; when its `length` property is not strictly `0` — in particular
for any error object without a `length` field — the attempted iteration
throws, is caught, and the error placeholder is rendered, while a non-array
whose `length` property is strictly `0` renders the no-data placeholder
instead. -/
theorem c10_nonarray_players :
    (∀ ok v, jsonIsArr v = false →
       ∃ s, loadPlayers (.response ok (some v)) = .message s) ∧
    (∀ ok v, jsonIsArr v = false → lenEqZero v = false →
       loadPlayers (.response ok (some v)) = .message errPlayersMsg) ∧
    (∀ ok v, jsonIsArr v = false → lenEqZero v = true →
       loadPlayers (.response ok (some v)) = .message noPlayersMsg) := by
  refine ⟨?_, ?_, ?_⟩
  · intro ok v hv
    cases v with
    | jarr es => simp [jsonIsArr] at hv
    | jnull => exact ⟨_, rfl⟩
    | jbool b => exact ⟨_, rfl⟩
    | jnum n => exact ⟨_, rfl⟩
    | jstr s =>
      simp only [loadPlayers, jsLengthProp]
      split
      · exact ⟨_, rfl⟩
      · exact ⟨_, rfl⟩
    | jobj fs =>
      simp only [loadPlayers, jsLengthProp]
      split
      · exact ⟨_, rfl⟩
      · exact ⟨_, rfl⟩
  · intro ok v hv hz
    cases v with
    | jarr es => simp [jsonIsArr] at hv
    | jnull => rfl
    | jbool b => rfl
    | jnum n => rfl
    | jstr s =>
      simp only [lenEqZero, jsLengthProp] at hz
      simp [loadPlayers, jsLengthProp, hz]
    | jobj fs =>
      simp only [lenEqZero, jsLengthProp] at hz
      simp [loadPlayers, jsLengthProp, hz]
  · intro ok v hv hz
    cases v with
    | jarr es => simp [jsonIsArr] at hv
    | jnull => simp [lenEqZero, jsLengthProp] at hz
    | jbool b => simp [lenEqZero, jsLengthProp, strictEqZero] at hz
    | jnum n => simp [lenEqZero, jsLengthProp, strictEqZero] at hz
    | jstr s =>
      simp only [lenEqZero, jsLengthProp] at hz
      simp [loadPlayers, jsLengthProp, hz]
    | jobj fs =>
      simp only [lenEqZero, jsLengthProp] at hz
      simp [loadPlayers, jsLengthProp, hz]

/-- C10 witness: an ordinary error-object body takes the caught-iteration
path to the error placeholder, while the empty-string body takes the
`length === 0` path to the no-data placeholder. -/
theorem c10_nonarray_players_witness :
    (∃ s, loadPlayers (.response true
        (some (.jobj [("detail", .jstr "boom")]))) = .message s) ∧
    loadPlayers (.response true (some (.jobj [("detail", .jstr "boom")]))) =
      .message errPlayersMsg ∧
    loadPlayers (.response true (some (.jstr ""))) = .message noPlayersMsg :=
  ⟨c10_nonarray_players.1 true _ rfl,
   c10_nonarray_players.2.1 true _ rfl rfl,
   c10_nonarray_players.2.2 true _ rfl rfl⟩
